import Mathlib

/-!
# Verification of the data-quality dashboard logic

Shallow embedding of the decision logic of the dashboard application
(`appTestSupabase.py`) and of the score color-banding of the matching
viewer (`app_11.py`): tabular values, the pandas-style group-by/mean
aggregation, the demo-fallback gate, the status-glyph lookup, the
correction-review update, the guarded data loaders, and the five-bucket
score colouring.  Machine floats are modelled as rationals (the scores
involved are small decimals), pandas `NaN` as an absent optional value,
and Python `None`/empty-string truthiness explicitly.
-/

namespace DataQuality

/-- A cell value of a tabular result: string, number, boolean or null
(pandas `NaN` / JSON `null`). -/
inductive Value where
  | str (s : String)
  | num (q : ℚ)
  | boolean (b : Bool)
  | null
deriving DecidableEq, Repr

/-- An in-memory tabular result: an ordered list of column names and a
list of rows, each row listing its cell values in column order
(the shape of a `pandas.DataFrame` built from a list of records). -/
structure DataFrame where
  columns : List String
  rows : List (List Value)
deriving DecidableEq, Repr

/-- The empty dataframe `pd.DataFrame()` returned by the guarded loaders. -/
def DataFrame.empty : DataFrame := ⟨[], []⟩

/-- Position of a column name in the dataframe schema, if present
(Python `"c" in df.columns` and positional access). -/
def colIdx (df : DataFrame) (c : String) : Option Nat :=
  df.columns.findIdx? (fun x => x == c)

/-- Cell of a row at a column position; out-of-range reads as null. -/
def rowVal (row : List Value) (i : Nat) : Value :=
  row.getD i Value.null

/-- `df.empty` in pandas: no rows. -/
def DataFrame.isEmptyDF (df : DataFrame) : Bool :=
  df.rows.isEmpty

/-- `get_status_emoji`'s lookup table, verbatim from the source
(`appTestSupabase.py` lines 230-239): eight statuses, no `resolved`
entry, keys in lower case only. -/
def status_map : List (String × String) :=
  [("ok", "🟢"), ("warning", "🟡"), ("critical", "🔴"), ("pending", "⏳"),
   ("validated", "✅"), ("rejected", "❌"), ("open", "🔵"), ("escalated", "🚨")]

/-- `get_status_emoji(status)`: `status_map.get(status, "⚪")`.  The input
is optional so that a Python `None` argument (which is simply not a key of
the dict) can be modelled; the lookup is the dict lookup, exact and
case-sensitive. -/
def get_status_emoji (status : Option String) : String :=
  match status.bind (fun s => List.lookup s status_map) with
  | some e => e
  | none => "⚪"

/-- `get_score_color` from `app_11.py` lines 70-81: threshold chain
85 / 75 / 60 / 40 over five colours. -/
def get_score_color (score : ℚ) : String :=
  if 85 ≤ score then "#27ae60"
  else if 75 ≤ score then "#f1c40f"
  else if 60 ≤ score then "#e67e22"
  else if 40 ≤ score then "#e74c3c"
  else "#c0392b"

/-- `get_score_bg_color` from `app_11.py` lines 84-95: the same threshold
chain over five light background colours. -/
def get_score_bg_color (score : ℚ) : String :=
  if 85 ≤ score then "#d4edda"
  else if 75 ≤ score then "#fff3cd"
  else if 60 ≤ score then "#ffeaa7"
  else if 40 ≤ score then "#f8d7da"
  else "#f5c6cb"

/-- The five-bucket partition both colour functions follow:
bucket 0 is `score ≥ 85`, 1 is `85 > score ≥ 75`, 2 is `75 > score ≥ 60`,
3 is `60 > score ≥ 40`, 4 is `score < 40`. -/
def scoreBucket (score : ℚ) : Nat :=
  if 85 ≤ score then 0
  else if 75 ≤ score then 1
  else if 60 ≤ score then 2
  else if 40 ≤ score then 3
  else 4

/-- Foreground colour assigned to each bucket. -/
def fgOfBucket (b : Nat) : String :=
  ["#27ae60", "#f1c40f", "#e67e22", "#e74c3c", "#c0392b"].getD b "#c0392b"

/-- Background colour assigned to each bucket. -/
def bgOfBucket (b : Nat) : String :=
  ["#d4edda", "#fff3cd", "#ffeaa7", "#f8d7da", "#f5c6cb"].getD b "#f5c6cb"

/-- Numeric reading of a cell: a number is kept, anything else (null,
string, boolean) is missing for a pandas numeric reduction. -/
def toNum : Value → Option ℚ
  | Value.num q => some q
  | _ => none

/-- The (key, value) column pair extracted from a dataframe, as used by
`df.groupby(key)[val]`; if either column is absent the extraction is
empty. -/
def colPairs (df : DataFrame) (key val : String) : List (Value × Value) :=
  match colIdx df key, colIdx df val with
  | some ki, some vi => df.rows.map (fun r => (rowVal r ki, rowVal r vi))
  | _, _ => []

/-- First-occurrence deduplication of group keys (`seen` accumulates the
keys already emitted). -/
def dedupKeys (seen : List Value) : List Value → List Value
  | [] => []
  | k :: ks =>
    if seen.contains k then dedupKeys seen ks
    else k :: dedupKeys (k :: seen) ks

/-- The numeric values of a given group: the value cells of the rows
whose key cell equals `k`, keeping numbers only (pandas skips `NaN`). -/
def numsFor (ps : List (Value × Value)) (k : Value) : List ℚ :=
  (ps.filter (fun p => p.1 == k)).filterMap (fun p => toNum p.2)

/-- Arithmetic mean of a list of rationals; the empty list has no mean
(pandas yields `NaN` there). -/
def meanOpt (l : List ℚ) : Option ℚ :=
  if l.isEmpty then none else some (l.sum / (l.length : ℚ))

/-- `df.groupby(key)[val].mean()`: one entry per distinct non-null key
(groupby drops null keys), whose value is the mean of the group's
non-null numeric cells — `none` (pandas `NaN`) when the group has no
numeric cell.  Every non-null key of the table yields an entry; groups
are never dropped. -/
def pandasGroupByMean (df : DataFrame) (key val : String) :
    List (Value × Option ℚ) :=
  let ps := colPairs df key val
  let keys := (dedupKeys [] (ps.map Prod.fst)).filter (fun k => !(k == Value.null))
  keys.map (fun k => (k, meanOpt (numsFor ps k)))

/-- Comparison used by `sort_values(ascending=True)`: numeric values in
numeric order, `NaN` (`none`) placed last (`na_position="last"`). -/
def valLE : Option ℚ → Option ℚ → Bool
  | _, none => true
  | none, some _ => false
  | some a, some b => decide (a ≤ b)

/-- The sorting relation on (category, value) series entries. -/
def serLE (a b : Value × Option ℚ) : Prop :=
  valLE a.2 b.2 = true

instance : DecidableRel serLE :=
  fun a b => inferInstanceAs (Decidable (valLE a.2 b.2 = true))

instance : IsTotal (Value × Option ℚ) serLE where
  total a b := by
    unfold serLE valLE
    rcases a with ⟨_, _ | x⟩ <;> rcases b with ⟨_, _ | y⟩ <;> simp
    exact le_total x y

instance : IsTrans (Value × Option ℚ) serLE where
  trans a b c hab hbc := by
    unfold serLE valLE at hab hbc ⊢
    rcases a with ⟨_, _ | x⟩ <;> rcases b with ⟨_, _ | y⟩ <;>
      rcases c with ⟨_, _ | z⟩ <;> simp_all
    exact le_trans hab hbc

/-- A panel series as produced before rendering: group-by/mean then
`sort_values(ascending=True)` (lines 292-293 and 322-323 of
`appTestSupabase.py`). -/
def sortedSeries (df : DataFrame) (key val : String) :
    List (Value × Option ℚ) :=
  List.insertionSort serLE (pandasGroupByMean df key val)

/-- The live/demo gate of the health panel (line 291):
`if not df_health.empty and "business_domain" in df_health.columns`.
The demo branch is taken when this is false. -/
def use_demo_health (df_health : DataFrame) : Bool :=
  !((!df_health.isEmptyDF) && df_health.columns.contains "business_domain")

/-- The live/demo gate of the rule-type panel (line 321):
`if not df_summary.empty and "rule_type_name" in df_summary.columns`. -/
def use_demo_rules (df_summary : DataFrame) : Bool :=
  !((!df_summary.isEmptyDF) && df_summary.columns.contains "rule_type_name")

/-- What the health panel emits to the page: the live bar chart, one
demo health bar per canned (domain, score) pair, or a warning/banner
text (`st.warning`-style messages — the only call in the app that could
act as a "showing demo data" indicator). -/
inductive RenderItem where
  | chart (series : List (Value × Option ℚ))
  | healthBar (label : String) (score : ℚ)
  | banner (msg : String)
deriving DecidableEq, Repr

/-- The canned domain scores of the health panel's demo branch
(line 315). -/
def demoDomainScores : List (String × ℚ) :=
  [("Regulatory", 96), ("Finance", 94), ("Accounting", 99),
   ("Reference", 87), ("Risk", 95)]

/-- The health panel render (lines 291-316): live branch draws the
sorted group-by chart; demo branch draws the five canned health bars
and nothing else — in particular no banner. -/
def renderHealthPanel (df_health : DataFrame) : List RenderItem :=
  if (!df_health.isEmptyDF) && df_health.columns.contains "business_domain" then
    [RenderItem.chart (sortedSeries df_health "business_domain" "overall_score")]
  else
    demoDomainScores.map (fun p => RenderItem.healthBar p.1 p.2)

/-- Whether a render item is a visible demo-data indicator. -/
def isDemoIndicator : RenderItem → Bool
  | RenderItem.banner _ => true
  | _ => false

/-- Mean of a whole numeric column (`df[c].mean()`): `none` when the
column is absent or holds no numeric value (pandas `NaN`). -/
def colMeanQ (df : DataFrame) (c : String) : Option ℚ :=
  match colIdx df c with
  | none => none
  | some i => meanOpt ((df.rows.map (fun r => rowVal r i)).filterMap toNum)

/-- The overall-score KPI (line 267):
`df_summary["score"].mean() if "score" in df_summary.columns else 0`.
A missing `score` column yields the literal `0`, displayed as `0.0%`. -/
def overall_score (df_summary : DataFrame) : Option ℚ :=
  if df_summary.columns.contains "score" then colMeanQ df_summary "score"
  else some 0

/-- A stored `dq_correction` row, with the fields touched by the
review workflow. -/
structure Correction where
  correction_id : Int
  decision_status : String
  decided_by : Option String
  decided_at : Option Nat
  decision_comment : Option String
  final_value : Option String
deriving DecidableEq, Repr

/-- A `dq_audit_log` row as inserted by `update_correction_status`. -/
structure AuditEntry where
  entity_type : String
  entity_id : Int
  action : String
  previous_status : String
  new_status : String
  user_id : String
  user_email : String
  comment : Option String
deriving DecidableEq, Repr

/-- Python truthiness of an optional string (`if comment:`): `None` and
the empty string are falsy. -/
def optTruthy : Option String → Bool
  | none => false
  | some s => !s.isEmpty

/-- The update payload applied to a matched row: `decision_status`,
`decided_by`, `decided_at` always; `decision_comment` and `final_value`
only when truthy (lines 176-184). -/
def applyUpdate (now : Nat) (status user : String)
    (comment final_value : Option String) (c : Correction) : Correction :=
  { c with
    decision_status := status
    decided_by := some user
    decided_at := some now
    decision_comment := if optTruthy comment then comment else c.decision_comment
    final_value := if optTruthy final_value then final_value else c.final_value }

/-- `update_correction_status` (lines 169-203) against an in-memory
store: the update is filtered by `.eq("correction_id", correction_id)`
ONLY — there is no condition on the stored `decision_status` — then one
audit row is appended whose action is
`"validate" if status == "validated" else "reject"` and whose
`previous_status` is the literal `"pending"`; the call returns `True`.
Result: (updated store, updated audit log, returned boolean). -/
def update_correction_status (db : List Correction) (audit : List AuditEntry)
    (correction_id : Int) (status user : String)
    (comment final_value : Option String) (now : Nat) :
    List Correction × List AuditEntry × Bool :=
  let db2 := db.map (fun c =>
    if c.correction_id = correction_id then
      applyUpdate now status user comment final_value c
    else c)
  let entry : AuditEntry :=
    { entity_type := "correction"
      entity_id := correction_id
      action := if status = "validated" then "validate" else "reject"
      previous_status := "pending"
      new_status := status
      user_id := user
      user_email := user ++ "@company.com"
      comment := comment }
  (db2, audit ++ [entry], true)

/-- `load_dashboard_summary` (lines 61-73): empty frame without a
client; otherwise the fetched rows on success and the empty frame when
the upstream call raises (the exception is caught, an error message is
shown, nothing propagates). -/
def load_dashboard_summary (hasClient : Bool)
    (response : Except String DataFrame) : DataFrame :=
  if hasClient then
    match response with
    | Except.ok df => df
    | Except.error _ => DataFrame.empty
  else DataFrame.empty

/-- `load_table_data` (lines 152-163): same guard shape, parameterised
by the requested table name, column filter and row limit (which only
feed the upstream call). -/
def load_table_data (hasClient : Bool)
    (fetch : String → String → Nat → Except String DataFrame)
    (table_name : String) (columns : String) (limit : Nat) : DataFrame :=
  if hasClient then
    match fetch table_name columns limit with
    | Except.ok df => df
    | Except.error _ => DataFrame.empty
  else DataFrame.empty

/-- `load_correction_queue` (lines 75-87), same guarded shape. -/
def load_correction_queue (hasClient : Bool)
    (response : Except String DataFrame) : DataFrame :=
  if hasClient then
    match response with
    | Except.ok df => df
    | Except.error _ => DataFrame.empty
  else DataFrame.empty

/-- `load_source_health` (lines 89-101), same guarded shape. -/
def load_source_health (hasClient : Bool)
    (response : Except String DataFrame) : DataFrame :=
  if hasClient then
    match response with
    | Except.ok df => df
    | Except.error _ => DataFrame.empty
  else DataFrame.empty

/-- `load_issues` (lines 103-115), same guarded shape. -/
def load_issues (hasClient : Bool)
    (response : Except String DataFrame) : DataFrame :=
  if hasClient then
    match response with
    | Except.ok df => df
    | Except.error _ => DataFrame.empty
  else DataFrame.empty

/-! ### Concrete inputs used by the scenario theorems -/

/-- The spec scenario table: two Finance scores and one null Risk score. -/
def df3 : DataFrame :=
  ⟨["domain", "score"],
   [[Value.str "Finance", Value.num 90],
    [Value.str "Finance", Value.num 94],
    [Value.str "Risk", Value.null]]⟩

/-- A two-domain health table with out-of-order scores. -/
def df8 : DataFrame :=
  ⟨["business_domain", "overall_score"],
   [[Value.str "A", Value.num 96], [Value.str "B", Value.num 87]]⟩

/-- A non-empty health table lacking the `business_domain` column. -/
def dfNoBD : DataFrame := ⟨["overall_score"], [[Value.num 90]]⟩

/-- A non-empty summary table lacking the `score` column. -/
def dfNoScore : DataFrame := ⟨["source_name"], [[Value.str "a"]]⟩

/-- A correction already decided (`validated`), hence not `pending`. -/
def corr42 : Correction := ⟨42, "validated", some "alice", some 5, none, none⟩

/-- A correction still in `pending` state. -/
def corr42p : Correction := ⟨42, "pending", none, none, none, none⟩

/-! ### Helper lemmas -/

/-- A lookup over an association list none of whose keys is `x` yields
nothing. -/
theorem lookup_eq_none_of_no_key : ∀ (l : List (String × String)) (x : String),
    (∀ kv ∈ l, kv.1 ≠ x) → List.lookup x l = none := by
  intro l x
  induction l with
  | nil => intro _; rfl
  | cons kv t ih =>
    intro h
    have hne : kv.1 ≠ x := h kv (List.mem_cons_self kv t)
    have hk : (x == kv.1) = false := by
      simp only [beq_eq_false_iff_ne, ne_eq]
      exact fun e => hne e.symm
    simp only [List.lookup, hk]
    exact ih (fun p hp => h p (List.mem_cons_of_mem kv hp))

/-- Deduplication loses no element: anything in the input is in the
output or was already seen. -/
theorem mem_dedupKeys {x : Value} : ∀ (seen l : List Value), x ∈ l →
    x ∈ seen ∨ x ∈ dedupKeys seen l := by
  intro seen l
  induction l generalizing seen with
  | nil => intro hx; cases hx
  | cons k ks ih =>
    intro hx
    by_cases hk : seen.contains k = true
    · rw [dedupKeys, if_pos hk]
      rcases List.mem_cons.mp hx with rfl | hx2
      · exact Or.inl (by simpa using hk)
      · exact ih seen hx2
    · rw [dedupKeys, if_neg hk]
      rcases List.mem_cons.mp hx with rfl | hx2
      · exact Or.inr (List.mem_cons_self _ _)
      · rcases ih (k :: seen) hx2 with hin | hin
        · rcases List.mem_cons.mp hin with rfl | hin2
          · exact Or.inr (List.mem_cons_self _ _)
          · exact Or.inl hin2
        · exact Or.inr (List.mem_cons_of_mem _ hin)

/-- A panel series is sorted under the `NaN`-last value order. -/
theorem sortedSeries_sorted (df : DataFrame) (key val : String) :
    List.Sorted serLE (sortedSeries df key val) :=
  List.sorted_insertionSort serLE (pandasGroupByMean df key val)

/-- The group-by/mean of the spec scenario table keeps the all-null
`Risk` group, with value `NaN`. -/
theorem df3_groupMean :
    pandasGroupByMean df3 "domain" "score" =
      [(Value.str "Finance", some 92), (Value.str "Risk", none)] := by
  simp +decide [pandasGroupByMean, colPairs, colIdx, rowVal, dedupKeys, numsFor,
    meanOpt, toNum, df3, List.findIdx?]
  norm_num

/-- The sorted series of the spec scenario table: `Risk`'s `NaN` sorts
last. -/
theorem df3_sorted :
    sortedSeries df3 "domain" "score" =
      [(Value.str "Finance", some 92), (Value.str "Risk", none)] := by
  unfold sortedSeries
  rw [df3_groupMean]
  decide

/-- The sorted series of the two-domain health table. -/
theorem df8_sorted :
    sortedSeries df8 "business_domain" "overall_score" =
      [(Value.str "B", some 87), (Value.str "A", some 96)] := by
  have h : pandasGroupByMean df8 "business_domain" "overall_score" =
      [(Value.str "A", some 96), (Value.str "B", some 87)] := by
    simp +decide [pandasGroupByMean, colPairs, colIdx, rowVal, dedupKeys, numsFor,
      meanOpt, toNum, df8, List.findIdx?]
  unfold sortedSeries
  rw [h]
  decide

/-! ### Claim theorems -/

/-- Claim C1, counterexample: on a stored record whose state is
`validated` (not `pending`), `update_correction_status` does not fail —
it returns `True` and rewrites the record to the requested status, so
the claimed pending-only conditional update does not exist. -/
theorem C1_no_pending_guard_counterexample :
    corr42.decision_status ≠ "pending" ∧
    (update_correction_status [corr42] [] 42 "rejected" "bob" none none 10).2.2 = true ∧
    (update_correction_status [corr42] [] 42 "rejected" "bob" none none 10).1 ≠ [corr42] ∧
    ((update_correction_status [corr42] [] 42 "rejected" "bob" none none 10).1.map
      Correction.decision_status) = ["rejected"] := by
  decide

/-- Claim C1, amended: `update_correction_status` filters only on
`correction_id`; for every store and every matching record — even one
whose stored state is not `pending` — the call reports success and the
record is rewritten to the requested status.  No InvalidTransition
condition and no state guard exist at the persistence layer (the
pending check lives only in the UI, which shows decision buttons only
for rows it believes are pending), so of two transitions racing on the
same record both succeed and the later write wins. -/
theorem C1_update_ignores_stored_state
    (db : List Correction) (audit : List AuditEntry) (cid : Int)
    (status user : String) (comment final_value : Option String) (now : Nat)
    (c : Correction) (hmem : c ∈ db) (hid : c.correction_id = cid)
    (hnp : c.decision_status ≠ "pending") :
    (update_correction_status db audit cid status user comment final_value now).2.2 = true ∧
    applyUpdate now status user comment final_value c ∈
      (update_correction_status db audit cid status user comment final_value now).1 ∧
    (applyUpdate now status user comment final_value c).decision_status = status := by
  refine ⟨rfl, ?_, rfl⟩
  exact List.mem_map.mpr ⟨c, hmem, by rw [if_pos hid]⟩

/-- Claim C1, witness: the amended theorem applied to a one-record
store holding the already-validated correction 42. -/
theorem C1_witness :
    (update_correction_status [corr42] [] 42 "validated" "bob" none none 10).2.2 = true ∧
    applyUpdate 10 "validated" "bob" none none corr42 ∈
      (update_correction_status [corr42] [] 42 "validated" "bob" none none 10).1 ∧
    (applyUpdate 10 "validated" "bob" none none corr42).decision_status = "validated" :=
  C1_update_ignores_stored_state [corr42] [] 42 "validated" "bob" none none 10 corr42
    (List.mem_cons_self _ _) rfl (by decide)

/-- Claim C2, counterexample: a health source with one row — hence
non-empty — but without the `business_domain` column still drives the
gate to demo, so a non-empty source does not make the gate false. -/
theorem C2_nonempty_source_still_demo :
    dfNoBD.rows ≠ [] ∧ use_demo_health dfNoBD = true := by decide

/-- Claim C2, amended: the health panel's demo gate is true iff its
source has zero rows or lacks the panel's required `business_domain`
column; mere non-emptiness is not enough to select live data. -/
theorem C2_gate_iff (df : DataFrame) :
    use_demo_health df = true ↔
      (df.rows = [] ∨ df.columns.contains "business_domain" = false) := by
  unfold use_demo_health DataFrame.isEmptyDF
  cases hr : df.rows with
  | nil => simp
  | cons a t =>
    simp only [List.isEmpty_cons, Bool.not_false, Bool.true_and, Bool.not_eq_true']
    constructor
    · intro h; exact Or.inr h
    · intro h
      rcases h with h | h
      · cases h
      · exact h

/-- Claim C2, witness: the amended equivalence applied to the empty
frame. -/
theorem C2_witness : use_demo_health DataFrame.empty = true :=
  (C2_gate_iff DataFrame.empty).mpr (Or.inl rfl)

/-- Claim C3, counterexample: on the spec scenario rows the group-by
mean does not yield `[(Finance, 92)]` — the all-null `Risk` category is
not excluded (it is kept with a `NaN` value), both before and after
sorting. -/
theorem C3_risk_not_dropped :
    pandasGroupByMean df3 "domain" "score" ≠ [(Value.str "Finance", some 92)] ∧
    sortedSeries df3 "domain" "score" ≠ [(Value.str "Finance", some 92)] := by
  rw [df3_groupMean, df3_sorted]
  constructor <;> decide

/-- Claim C3, amended: the mean aggregation averages the non-null
numeric values of each category, but a category whose values are all
null stays in the result with a `NaN` (absent) value rather than being
excluded: the scenario rows yield `[(Finance, 92), (Risk, NaN)]` with
the `NaN` sorted last, and in general every non-null key of the input
appears in the aggregation output. -/
theorem C3_mean_keeps_allnull_group_as_nan :
    sortedSeries df3 "domain" "score" =
      [(Value.str "Finance", some 92), (Value.str "Risk", none)] ∧
    ∀ (df : DataFrame) (key val : String) (k : Value),
      k ∈ (colPairs df key val).map Prod.fst → k ≠ Value.null →
      ∃ v, (k, v) ∈ pandasGroupByMean df key val := by
  refine ⟨df3_sorted, ?_⟩
  intro df key val k hk hnull
  refine ⟨meanOpt (numsFor (colPairs df key val) k), ?_⟩
  show (k, meanOpt (numsFor (colPairs df key val) k)) ∈
    ((dedupKeys [] ((colPairs df key val).map Prod.fst)).filter
      (fun k => !(k == Value.null))).map
      (fun k => (k, meanOpt (numsFor (colPairs df key val) k)))
  apply List.mem_map_of_mem
  apply List.mem_filter.mpr
  refine ⟨?_, by simpa using hnull⟩
  rcases mem_dedupKeys [] ((colPairs df key val).map Prod.fst) hk with h | h
  · cases h
  · exact h

/-- Claim C3, witness: the amended theorem's universal part applied to
the scenario table and the `Risk` key. -/
theorem C3_witness :
    (Value.str "Risk") ∈ (colPairs df3 "domain" "score").map Prod.fst ∧
    ∃ v, (Value.str "Risk", v) ∈ pandasGroupByMean df3 "domain" "score" :=
  ⟨by decide, C3_mean_keeps_allnull_group_as_nan.2 df3 "domain" "score"
    (Value.str "Risk") (by decide) (by decide)⟩

/-- Claim C4, counterexample: the glyph lookup is case-sensitive
(`CRITICAL` falls to the default while `critical` gets the red glyph)
and `resolved` is not in the table at all, so the claimed
case-insensitive match over a vocabulary containing `resolved` fails. -/
theorem C4_case_sensitive_counterexample :
    get_status_emoji (some "CRITICAL") = "⚪" ∧
    get_status_emoji (some "critical") = "🔴" ∧
    get_status_emoji (some "CRITICAL") ≠ get_status_emoji (some "critical") ∧
    get_status_emoji (some "resolved") = "⚪" := by decide

/-- Claim C4, amended: `get_status_emoji` matches its input
case-sensitively against the eight-entry map {ok, warning, critical,
pending, validated, rejected, open, escalated} (no `resolved` entry),
returning the fixed glyph for each exact lower-case key and the default
`⚪` — without failing — for null and for every other string, including
`resolved` and upper-case variants of the keys. -/
theorem C4_glyph_table (s : Option String)
    (h : ∀ kv ∈ status_map, some kv.1 ≠ s) :
    get_status_emoji s = "⚪" ∧
    get_status_emoji (some "ok") = "🟢" ∧ get_status_emoji (some "warning") = "🟡" ∧
    get_status_emoji (some "critical") = "🔴" ∧ get_status_emoji (some "pending") = "⏳" ∧
    get_status_emoji (some "validated") = "✅" ∧ get_status_emoji (some "rejected") = "❌" ∧
    get_status_emoji (some "open") = "🔵" ∧ get_status_emoji (some "escalated") = "🚨" ∧
    get_status_emoji none = "⚪" := by
  refine ⟨?_, by decide, by decide, by decide, by decide, by decide, by decide,
    by decide, by decide, by decide⟩
  cases s with
  | none => rfl
  | some x =>
    have hx : ∀ kv ∈ status_map, kv.1 ≠ x := by
      intro kv hkv e
      exact h kv hkv (by rw [e])
    have hl := lookup_eq_none_of_no_key status_map x hx
    simp [get_status_emoji, hl]

/-- Claim C4, witness: the amended theorem applied to the
out-of-vocabulary input `bogus`. -/
theorem C4_witness :
    get_status_emoji (some "bogus") = "⚪" ∧
    get_status_emoji (some "ok") = "🟢" ∧ get_status_emoji (some "warning") = "🟡" ∧
    get_status_emoji (some "critical") = "🔴" ∧ get_status_emoji (some "pending") = "⏳" ∧
    get_status_emoji (some "validated") = "✅" ∧ get_status_emoji (some "rejected") = "❌" ∧
    get_status_emoji (some "open") = "🔵" ∧ get_status_emoji (some "escalated") = "🚨" ∧
    get_status_emoji none = "⚪" :=
  C4_glyph_table (some "bogus") (by decide)

/-- Claim C5, counterexample: a non-empty summary table with no `score`
column is not skipped — the overall-score metric substitutes the
literal zero. -/
theorem C5_zero_substitution_counterexample :
    dfNoScore.rows ≠ [] ∧ dfNoScore.columns.contains "score" = false ∧
    overall_score dfNoScore = some 0 := by decide

/-- Claim C5, amended: there is no multi-candidate metric resolver —
the overall-score KPI reads the single `df_summary` table, and whenever
the `score` column is absent (even from a non-empty table) the metric
is computed as the literal `0` rather than the source being skipped. -/
theorem C5_missing_column_yields_zero (df : DataFrame)
    (h : df.columns.contains "score" = false) : overall_score df = some 0 := by
  unfold overall_score
  rw [h]
  simp

/-- Claim C5, witness: the amended theorem applied to the non-empty
score-less table. -/
theorem C5_witness :
    dfNoScore.columns.contains "score" = false ∧ overall_score dfNoScore = some 0 :=
  ⟨by decide, C5_missing_column_yields_zero dfNoScore (by decide)⟩

/-- Claim C6, counterexample: with an empty health source the demo gate
is true and the panel renders exactly the five canned health bars —
canned data is displayed with no demo-data indicator anywhere in the
output. -/
theorem C6_demo_no_banner_counterexample :
    use_demo_health DataFrame.empty = true ∧
    renderHealthPanel DataFrame.empty =
      demoDomainScores.map (fun p => RenderItem.healthBar p.1 p.2) ∧
    renderHealthPanel DataFrame.empty ≠ [] ∧
    (renderHealthPanel DataFrame.empty).all (fun it => !(isDemoIndicator it)) = true := by
  decide

/-- Claim C6, amended: whenever the demo gate is true the panel's data
is entirely replaced by the fixed demo dataset, but no visible
"showing demo data" indicator is rendered — every item of the demo
output is a plain health bar, indistinguishable from live rendering. -/
theorem C6_demo_without_banner (df : DataFrame) (h : use_demo_health df = true) :
    renderHealthPanel df = demoDomainScores.map (fun p => RenderItem.healthBar p.1 p.2) ∧
    ∀ it ∈ renderHealthPanel df, isDemoIndicator it = false := by
  have hb : ((!df.isEmptyDF) && df.columns.contains "business_domain") = false := by
    have h2 := h
    unfold use_demo_health at h2
    rwa [Bool.not_eq_true'] at h2
  have hrender : renderHealthPanel df =
      demoDomainScores.map (fun p => RenderItem.healthBar p.1 p.2) := by
    unfold renderHealthPanel
    rw [hb]
    simp
  refine ⟨hrender, ?_⟩
  intro it hit
  rw [hrender] at hit
  rcases List.mem_map.mp hit with ⟨p, _, rfl⟩
  rfl

/-- Claim C6, witness: the amended theorem applied to the empty health
source. -/
theorem C6_witness :
    renderHealthPanel DataFrame.empty =
      demoDomainScores.map (fun p => RenderItem.healthBar p.1 p.2) ∧
    ∀ it ∈ renderHealthPanel DataFrame.empty, isDemoIndicator it = false :=
  C6_demo_without_banner DataFrame.empty (by decide)

/-- Claim C7, code-bug evidence: a successful transition of a pending
record to `overwritten` records the comment and the replacement value,
but the audit entry written for it carries action `"reject"` — the
ternary in the source only distinguishes `validated` — so the audit
action misdescribes the overwritten transition. -/
theorem C7_overwritten_audit_action :
    ((update_correction_status [corr42p] [] 42 "overwritten" "alice"
        (some "fix") (some "99") 10).2.1.map AuditEntry.action) = ["reject"] ∧
    ((update_correction_status [corr42p] [] 42 "overwritten" "alice"
        (some "fix") (some "99") 10).2.1.map AuditEntry.new_status) = ["overwritten"] ∧
    ((update_correction_status [corr42p] [] 42 "overwritten" "alice"
        (some "fix") (some "99") 10).1.map Correction.final_value) = [some "99"] ∧
    ((update_correction_status [corr42p] [] 42 "overwritten" "alice"
        (some "fix") (some "99") 10).1.map Correction.decision_comment) = [some "fix"] := by
  decide

/-- Claim C8: every aggregated panel series is sorted ascending before
rendering — for every input table and every pair of adjacent positions
holding numeric values, the earlier value is at most the later one
(`NaN` entries sort after all numeric entries). -/
theorem C8_series_sorted_ascending (df : DataFrame) (key val : String) (i : Nat)
    (h : i + 1 < (sortedSeries df key val).length) (a b : ℚ)
    (ha : ((sortedSeries df key val).getD i (Value.null, none)).2 = some a)
    (hb : ((sortedSeries df key val).getD (i + 1) (Value.null, none)).2 = some b) :
    a ≤ b := by
  have hi : i < (sortedSeries df key val).length := Nat.lt_of_succ_lt h
  have hs := sortedSeries_sorted df key val
  have hr := hs.rel_get_of_lt (a := ⟨i, hi⟩) (b := ⟨i + 1, h⟩) (by simp [Fin.lt_def])
  rw [List.getD_eq_get _ _ hi] at ha
  rw [List.getD_eq_get _ _ h] at hb
  unfold serLE at hr
  rw [ha, hb] at hr
  simpa [valLE] using hr

/-- Claim C8, witness: the sortedness theorem applied at position 0 of
the two-domain health series, whose raw group order (96 before 87) is
reversed by the sort. -/
theorem C8_witness :
    (sortedSeries df8 "business_domain" "overall_score").length = 2 ∧ (87:ℚ) ≤ 96 :=
  ⟨by simp [df8_sorted], C8_series_sorted_ascending df8 "business_domain" "overall_score"
    0 (by simp [df8_sorted]) 87 96 (by simp [df8_sorted]) (by simp [df8_sorted])⟩

/-- Claim C9: every data loader recovers locally from an upstream
error — with or without a client, a raising table API call produces the
empty frame instead of a propagated exception, so each panel degrades
independently. -/
theorem C9_loaders_recover (hasClient : Bool) (e : String)
    (fetch : String → String → Nat → Except String DataFrame)
    (tn cols : String) (limit : Nat) (hf : fetch tn cols limit = Except.error e) :
    load_dashboard_summary hasClient (Except.error e) = DataFrame.empty ∧
    load_correction_queue hasClient (Except.error e) = DataFrame.empty ∧
    load_source_health hasClient (Except.error e) = DataFrame.empty ∧
    load_issues hasClient (Except.error e) = DataFrame.empty ∧
    load_table_data hasClient fetch tn cols limit = DataFrame.empty := by
  cases hasClient <;> simp [load_dashboard_summary, load_correction_queue,
    load_source_health, load_issues, load_table_data, hf]

/-- Claim C9, witness: the recovery theorem applied to a fetch that
always raises. -/
theorem C9_witness :
    load_dashboard_summary true (Except.error "boom") = DataFrame.empty ∧
    load_correction_queue true (Except.error "boom") = DataFrame.empty ∧
    load_source_health true (Except.error "boom") = DataFrame.empty ∧
    load_issues true (Except.error "boom") = DataFrame.empty ∧
    load_table_data true (fun _ _ _ => Except.error "boom") "t" "*" 100 = DataFrame.empty :=
  C9_loaders_recover true "boom" (fun _ _ _ => Except.error "boom") "t" "*" 100 rfl

/-- Claim C10: both score colour functions follow the same five-bucket
partition (85 / 75 / 60 / 40): for every score the bucket index is one
of five, and the foreground and background colours returned are the
fixed pair assigned to that same bucket. -/
theorem C10_same_bucket (s : ℚ) :
    scoreBucket s < 5 ∧
    get_score_color s = fgOfBucket (scoreBucket s) ∧
    get_score_bg_color s = bgOfBucket (scoreBucket s) := by
  by_cases h1 : 85 ≤ s <;> by_cases h2 : 75 ≤ s <;> by_cases h3 : 60 ≤ s <;>
    by_cases h4 : 40 ≤ s <;>
    simp [scoreBucket, get_score_color, get_score_bg_color, fgOfBucket, bgOfBucket,
      List.getD, h1, h2, h3, h4]

end DataQuality
